import Mathlib

/-
  Shallow embedding of the micro_async firmware runtime
  (src/channel.rs, src/gpiote.rs, src/executor.rs, src/time.rs).

  Wakers are modelled by the task id they carry (the source builds a Waker
  from a raw task_id pointer payload, executor.rs); hardware registers are
  modelled as Nat fields with explicit masking where the source masks.
-/

namespace MicroAsync

/-- Poll models core::task::Poll. -/
inductive Poll (α : Type) where
  | Ready (value : α)
  | Pending
  deriving DecidableEq, Repr

/- ---------------------------------------------------------------- -/
/- channel.rs                                                        -/
/- ---------------------------------------------------------------- -/

/-- Channel models channel.rs Channel: a single item slot plus a registered
waker slot (waker modelled by its task id). -/
structure Channel (T : Type) where
  item : Option T
  waker : Option Nat
  deriving DecidableEq, Repr

variable {T : Type}

/-- Channel.send mirrors channel.rs send: unconditionally overwrite the item
slot, then wake_by_ref the registered waker if present (the waker slot is
left in place).  The second component is the list of task ids woken. -/
def Channel.send (c : Channel T) (x : T) : Channel T × List Nat :=
  ({ c with item := some x },
    match c.waker with
    | some w => [w]
    | none => [])

/-- Channel.recv mirrors channel.rs recv: item.take(). -/
def Channel.recv (c : Channel T) : Option T × Channel T :=
  (c.item, { c with item := none })

/-- Channel.register mirrors channel.rs register: waker.replace(Some(waker)). -/
def Channel.register (c : Channel T) (w : Nat) : Channel T :=
  { c with waker := some w }

/-- RecvState mirrors channel.rs RecvState. -/
inductive RecvState where
  | Init
  | Wait
  deriving DecidableEq, Repr

/-- Receiver.recvPoll mirrors one poll of the poll_fn inside
Receiver::recv: in Init it registers the waker of the caller and returns
Pending (state becomes Wait); in Wait it calls channel.recv() and returns
Ready with the value when one is present, Pending otherwise. -/
def Receiver.recvPoll (state : RecvState) (wakerId : Nat) (c : Channel T) :
    Poll T × RecvState × Channel T :=
  match state with
  | .Init => (.Pending, .Wait, c.register wakerId)
  | .Wait =>
    match c.recv with
    | (some val, c2) => (.Ready val, .Wait, c2)
    | (none, c2) => (.Pending, .Wait, c2)

/- ---------------------------------------------------------------- -/
/- gpiote.rs                                                         -/
/- ---------------------------------------------------------------- -/

def MAX_CHANNELS : Nat := 8

/-- INVALID_TASK_ID mirrors gpiote.rs: usize::MAX. -/
def INVALID_TASK_ID : Nat := 2 ^ 64 - 1

/-- GpioteError mirrors gpiote.rs GpioteError. -/
inductive GpioteError where
  | OutOfChannels
  | GpioteManagerUninit
  deriving DecidableEq, Repr

/-- GpioteManager.get_channel mirrors gpiote.rs get_channel: units 0..7
exist, anything else is OutOfChannels. -/
def GpioteManager.get_channel (channel : Nat) : Except GpioteError Nat :=
  match channel with
  | 0 => .ok 0
  | 1 => .ok 1
  | 2 => .ok 2
  | 3 => .ok 3
  | 4 => .ok 4
  | 5 => .ok 5
  | 6 => .ok 6
  | 7 => .ok 7
  | _ => .error .OutOfChannels

/-- GpioteState models the static allocation state of gpiote.rs:
NEXT_CHANNEL and whether GpioteManager::init has run. -/
structure GpioteState where
  next_channel : Nat
  init_done : Bool
  deriving DecidableEq, Repr

/-- InputChannel.new mirrors gpiote.rs InputChannel::new: fetch_add on
NEXT_CHANNEL happens first, then the manager is checked, then the unit is
looked up; on success the allocated channel id is returned. -/
def InputChannel.new (s : GpioteState) : Except GpioteError Nat × GpioteState :=
  let channel_id := s.next_channel
  let s2 : GpioteState := { s with next_channel := s.next_channel + 1 }
  if s.init_done then
    match GpioteManager.get_channel channel_id with
    | .ok _ => (.ok channel_id, s2)
    | .error e => (.error e, s2)
  else
    (.error .GpioteManagerUninit, s2)

/-- allocRun performs n successive InputChannel::new allocations and
collects the results. -/
def allocRun : Nat → GpioteState → List (Except GpioteError Nat)
  | 0, _ => []
  | n + 1, s =>
    match InputChannel.new s with
    | (r, s2) => r :: allocRun n s2

/-- PinState mirrors embedded_hal PinState as used by wait_for. -/
inductive PinState where
  | High
  | Low
  deriving DecidableEq, Repr

/-- InputChannel.wait_for_poll mirrors one poll of the poll_fn inside
InputChannel::wait_for: if the current pin level equals ready_state the
poll completes immediately; otherwise the task id of the caller is stored
into WAKE_TASKS for this channel and the poll returns Pending.  The second
component is the wake slot after the poll. -/
def InputChannel.wait_for_poll (ready_state pin_level : PinState)
    (task_id wake_slot : Nat) : Poll Unit × Nat :=
  if ready_state = pin_level then (.Ready (), wake_slot)
  else (.Pending, task_id)

/- ---------------------------------------------------------------- -/
/- executor.rs                                                       -/
/- ---------------------------------------------------------------- -/

def MAX_TASKS : Nat := 4

/-- run_step models one iteration of the dequeue loop in
Executor::run_tasks for a popped index `task`: the source guard is
`task > tasks.len()` (error-and-continue, modelled as ok none); otherwise
the source indexes `tasks[task]`, which in Rust panics when the index is
out of bounds (modelled as Except.error); a valid index polls that task
(modelled as ok (some task)). -/
def run_step (tasks : List T) (task : Nat) : Except String (Option Nat) :=
  if task > tasks.length then
    .ok none
  else
    match tasks[task]? with
    | some _ => .ok (some task)
    | none => .error "index out of bounds"

/- ---------------------------------------------------------------- -/
/- time.rs                                                           -/
/- ---------------------------------------------------------------- -/

/-- TimerInner mirrors time.rs TimerInner: the absolute deadline tick and
the stored waker (modelled by its task id).  The queue link is represented
by membership in the deadlines list of the Ticker. -/
structure TimerInner where
  end_time : Nat
  waker : Option Nat
  deriving DecidableEq, Repr

/-- TimerQueue.insert_timer mirrors time.rs insert_timer: walk from the
front past every node whose end_time is not greater than the new one
(ties keep the earlier insertion in front), insert before the first node
with a strictly larger end_time. -/
def TimerQueue.insert_timer : List TimerInner → TimerInner → List TimerInner
  | [], t => [t]
  | current :: rest, t =>
    if current.end_time > t.end_time then t :: current :: rest
    else current :: TimerQueue.insert_timer rest t

/-- TimerQueue.peek_earliest mirrors time.rs peek_earliest. -/
def TimerQueue.peek_earliest (q : List TimerInner) : Option TimerInner :=
  q.head?

/-- TimerQueue.pop_earliest mirrors time.rs pop_earliest (pop_front). -/
def TimerQueue.pop_earliest : List TimerInner → Option TimerInner × List TimerInner
  | [] => (none, [])
  | t :: rest => (some t, rest)

/-- ins3 inserts three timers in sequence into an empty queue. -/
def ins3 (x y z : TimerInner) : List TimerInner :=
  TimerQueue.insert_timer (TimerQueue.insert_timer (TimerQueue.insert_timer [] x) y) z

/-- popThree performs three successive pop_earliest operations and returns
the three popped elements. -/
def popThree (q : List TimerInner) :
    Option TimerInner × Option TimerInner × Option TimerInner :=
  let p1 := TimerQueue.pop_earliest q
  let p2 := TimerQueue.pop_earliest p1.2
  let p3 := TimerQueue.pop_earliest p2.2
  (p1.1, p2.1, p3.1)

/-- TimerError mirrors time.rs TimerError.  In the source this type is
declared (DeadlineTooLarge { ticks: u64 }) but no code path ever
constructs or returns it. -/
inductive TimerError where
  | DeadlineTooLarge (ticks : Nat)
  deriving DecidableEq, Repr

/-- set_deadline mirrors time.rs set_deadline: the deadline tick is masked
to its low 24 bits and that value is programmed into the Compare0
register; the function returns the programmed value.  No error path
exists: the hal set_compare cannot fail on a masked value and its Result
is unwrapped. -/
def set_deadline (deadline_ticks : Nat) : Nat :=
  deadline_ticks &&& 0x00FFFFFF

/-- Ticker models time.rs Ticker together with the RTC0 hardware state it
owns: COUNTER, the software overflow_count (u32), the deadline queue, the
Compare0 register and the two event flags. -/
structure Ticker where
  counter : Nat
  overflow_count : Nat
  deadlines : List TimerInner
  compare : Nat
  overflow_evt : Bool
  compare_evt : Bool
  deriving DecidableEq, Repr

/-- Ticker.now_ticks mirrors Ticker::now: both the hardware counter and
the software overflow counter are read from the same state (the source
reads them inside one critical section), combined as
(overflow << 24) | counter. -/
def Ticker.now_ticks (t : Ticker) : Nat :=
  (t.overflow_count <<< 24) ||| t.counter

/-- Ticker.advance models one hardware tick of the free-running 24-bit
counter; on wraparound the Overflow branch of handle_rtc0_interrupt runs
before anything else reads the state (the premise of the monotonicity
claim), incrementing the u32 overflow counter. -/
def Ticker.advance (t : Ticker) : Ticker :=
  if t.counter + 1 < 2 ^ 24 then { t with counter := t.counter + 1 }
  else { t with counter := 0, overflow_count := (t.overflow_count + 1) % 2 ^ 32 }

/-- Timer.add_to_queue mirrors Timer::add_to_queue: if the timer is not
already linked, insert it and reprogram Compare0 from the earliest
pending deadline.  Arming never produces an error value. -/
def Timer.add_to_queue (t : Ticker) (timer : TimerInner) : Ticker :=
  if timer ∈ t.deadlines then t
  else
    let q := TimerQueue.insert_timer t.deadlines timer
    match TimerQueue.peek_earliest q with
    | some latest => { t with deadlines := q, compare := set_deadline latest.end_time }
    | none => { t with deadlines := q }

/-- Timer.remove_from_queue mirrors Timer::remove_from_queue: if linked,
remove the timer and reprogram Compare0 from the new earliest deadline if
one remains; when the queue becomes empty nothing touches Compare0 or the
event configuration. -/
def Timer.remove_from_queue (t : Ticker) (timer : TimerInner) : Ticker :=
  if timer ∈ t.deadlines then
    let rest := t.deadlines.erase timer
    match TimerQueue.peek_earliest rest with
    | some earliest =>
      { t with deadlines := rest, compare := set_deadline earliest.end_time }
    | none => { t with deadlines := rest }
  else t

/-- handle_rtc0_interrupt mirrors time.rs handle_rtc0_interrupt: service
the Overflow event first (increment overflow_count), then on a Compare0
event pop exactly one deadline — panicking (Except.error) when the queue
is empty — reprogram Compare0 from the next remaining deadline if any,
and wake the popped waker (panicking if it is absent).  The returned list
holds the task ids woken during this interrupt entry. -/
def handle_rtc0_interrupt (t0 : Ticker) : Except String (Ticker × List Nat) :=
  let t1 :=
    if t0.overflow_evt then
      { t0 with overflow_evt := false,
                overflow_count := (t0.overflow_count + 1) % 2 ^ 32 }
    else t0
  if t1.compare_evt then
    let t2 := { t1 with compare_evt := false }
    match TimerQueue.pop_earliest t2.deadlines with
    | (none, _) => .error "No deadline available on interrupt"
    | (some latest, rest) =>
      let t3 := { t2 with deadlines := rest }
      let t4 :=
        match TimerQueue.peek_earliest rest with
        | some pending => { t3 with compare := set_deadline pending.end_time }
        | none => t3
      match latest.waker with
      | none => .error "Timer does not have an associated waker"
      | some w => .ok (t4, [w])
  else
    .ok (t1, [])

/- ---------------------------------------------------------------- -/
/- Theorems                                                          -/
/- ---------------------------------------------------------------- -/

/-- Helper: the high part shifted by 24 bits or-ed with a 24-bit low part
is their sum. -/
theorem shiftLeft24_lor_eq (o c : Nat) (hc : c < 2 ^ 24) :
    (o <<< 24) ||| c = o * 2 ^ 24 + c := by
  rw [Nat.shiftLeft_eq, Nat.mul_comm o (2 ^ 24), ← Nat.mul_add_lt_is_or hc o]

/-- Helper: one Ticker.advance step preserves the 24-bit counter bound and
increases the extended tick value by exactly one, as long as the extended
value stays below 2 to the 56 (u32 overflow counter times 24-bit counter). -/
theorem advance_step (t : Ticker) (hc : t.counter < 2 ^ 24)
    (hb : t.overflow_count * 2 ^ 24 + t.counter + 1 < 2 ^ 56) :
    t.advance.counter < 2 ^ 24 ∧
      t.advance.overflow_count * 2 ^ 24 + t.advance.counter
        = t.overflow_count * 2 ^ 24 + t.counter + 1 := by
  unfold Ticker.advance
  by_cases h : t.counter + 1 < 2 ^ 24
  · simp only [if_pos h]
    exact ⟨h, by omega⟩
  · have hc24 : t.counter = 2 ^ 24 - 1 := by omega
    have hov : t.overflow_count + 1 < 2 ^ 32 := by
      by_contra hge
      have : t.overflow_count * 2 ^ 24 + t.counter + 1 ≥ 2 ^ 56 := by
        have h1 : t.overflow_count ≥ 2 ^ 32 - 1 := by omega
        calc t.overflow_count * 2 ^ 24 + t.counter + 1
            ≥ (2 ^ 32 - 1) * 2 ^ 24 + (2 ^ 24 - 1) + 1 := by
              have := Nat.mul_le_mul_right (2 ^ 24) h1
              omega
          _ = 2 ^ 56 := by norm_num
      omega
    simp only [if_neg h]
    refine ⟨by norm_num, ?_⟩
    simp only [Nat.mod_eq_of_lt hov]
    omega

/-- Helper: iterating Ticker.advance n steps adds n to the extended tick
value, provided the extended value stays below 2 to the 56. -/
theorem advance_iterate (n : Nat) (t : Ticker) (hc : t.counter < 2 ^ 24)
    (hb : t.overflow_count * 2 ^ 24 + t.counter + n < 2 ^ 56) :
    (Ticker.advance^[n] t).counter < 2 ^ 24 ∧
      (Ticker.advance^[n] t).overflow_count * 2 ^ 24 + (Ticker.advance^[n] t).counter
        = t.overflow_count * 2 ^ 24 + t.counter + n := by
  induction n generalizing t with
  | zero => exact ⟨hc, by simp⟩
  | succ n ih =>
    rw [Function.iterate_succ_apply]
    have h1 := advance_step t hc (by omega)
    have h2 := ih t.advance h1.1 (by omega)
    exact ⟨h2.1, by omega⟩

/-- C4: Ticker.now_ticks equals (overflow_count << 24) | counter, which is
overflow_count * 2^24 + counter (both fields read from one snapshot of the
state); along any sequence of hardware ticks in which every counter
wraparound increments the overflow counter via the overflow interrupt
before the next read, now_ticks grows by exactly the number of ticks and
successive readings are therefore non-decreasing (stated within the range
of the 32-bit overflow counter). -/
theorem c4_now_monotonic (t : Ticker) (m n : Nat) (hc : t.counter < 2 ^ 24)
    (hb : t.overflow_count * 2 ^ 24 + t.counter + n < 2 ^ 56) (hmn : m ≤ n) :
    Ticker.now_ticks t = t.overflow_count * 2 ^ 24 + t.counter ∧
      Ticker.now_ticks (Ticker.advance^[n] t) = Ticker.now_ticks t + n ∧
      Ticker.now_ticks (Ticker.advance^[m] t) ≤ Ticker.now_ticks (Ticker.advance^[n] t) := by
  have hn := advance_iterate n t hc hb
  have hm := advance_iterate m t hc (by omega)
  have e0 : Ticker.now_ticks t = t.overflow_count * 2 ^ 24 + t.counter :=
    shiftLeft24_lor_eq _ _ hc
  have en : Ticker.now_ticks (Ticker.advance^[n] t)
      = t.overflow_count * 2 ^ 24 + t.counter + n := by
    rw [Ticker.now_ticks, shiftLeft24_lor_eq _ _ hn.1, hn.2]
  have em : Ticker.now_ticks (Ticker.advance^[m] t)
      = t.overflow_count * 2 ^ 24 + t.counter + m := by
    rw [Ticker.now_ticks, shiftLeft24_lor_eq _ _ hm.1, hm.2]
  refine ⟨e0, by omega, by omega⟩

/-- C4 witness: instantiation at a concrete ticker state and five ticks. -/
theorem c4_now_monotonic_witness :
    Ticker.now_ticks (Ticker.advance^[5] ⟨10, 0, [], 0, false, false⟩)
      = Ticker.now_ticks ⟨10, 0, [], 0, false, false⟩ + 5 :=
  (c4_now_monotonic ⟨10, 0, [], 0, false, false⟩ 2 5 (by decide) (by decide)
    (by decide)).2.1

/-- Helper: inserting before a front node with a strictly larger deadline. -/
theorem insert_timer_cons_lt {c t : TimerInner} (rest : List TimerInner)
    (h : c.end_time > t.end_time) :
    TimerQueue.insert_timer (c :: rest) t = t :: c :: rest := by
  simp [TimerQueue.insert_timer, h]

/-- Helper: walking past a front node whose deadline is not larger. -/
theorem insert_timer_cons_ge {c t : TimerInner} (rest : List TimerInner)
    (h : ¬ c.end_time > t.end_time) :
    TimerQueue.insert_timer (c :: rest) t = c :: TimerQueue.insert_timer rest t := by
  simp [TimerQueue.insert_timer, h]

/-- Helper: inserting three strictly ordered deadlines in any of the six
insertion orders produces the ascending queue. -/
theorem ins3_sorted (e1 e2 e3 : Nat) (w1 w2 w3 : Option Nat)
    (h12 : e1 < e2) (h23 : e2 < e3) :
    ins3 ⟨e1, w1⟩ ⟨e2, w2⟩ ⟨e3, w3⟩ = [⟨e1, w1⟩, ⟨e2, w2⟩, ⟨e3, w3⟩] ∧
    ins3 ⟨e1, w1⟩ ⟨e3, w3⟩ ⟨e2, w2⟩ = [⟨e1, w1⟩, ⟨e2, w2⟩, ⟨e3, w3⟩] ∧
    ins3 ⟨e2, w2⟩ ⟨e1, w1⟩ ⟨e3, w3⟩ = [⟨e1, w1⟩, ⟨e2, w2⟩, ⟨e3, w3⟩] ∧
    ins3 ⟨e2, w2⟩ ⟨e3, w3⟩ ⟨e1, w1⟩ = [⟨e1, w1⟩, ⟨e2, w2⟩, ⟨e3, w3⟩] ∧
    ins3 ⟨e3, w3⟩ ⟨e1, w1⟩ ⟨e2, w2⟩ = [⟨e1, w1⟩, ⟨e2, w2⟩, ⟨e3, w3⟩] ∧
    ins3 ⟨e3, w3⟩ ⟨e2, w2⟩ ⟨e1, w1⟩ = [⟨e1, w1⟩, ⟨e2, w2⟩, ⟨e3, w3⟩] := by
  have h13 : e1 < e3 := Nat.lt_trans h12 h23
  refine ⟨?_, ?_, ?_, ?_, ?_, ?_⟩ <;>
    simp [ins3, TimerQueue.insert_timer, Nat.lt_asymm, h12, h23, h13,
      Nat.lt_asymm h12, Nat.lt_asymm h23, Nat.lt_asymm h13]

/-- C5: three deadlines d1 < d2 < d3 inserted into the deadline queue in
any of the six insertion orders are returned by successive pop_earliest
calls as d1, d2, d3; two timers with equal deadline ticks are popped in
earliest-inserted-first order. -/
theorem c5_deadline_ordering (e1 e2 e3 t a b : Nat) (w1 w2 w3 : Option Nat)
    (h12 : e1 < e2) (h23 : e2 < e3) :
    (popThree (ins3 ⟨e1, w1⟩ ⟨e2, w2⟩ ⟨e3, w3⟩)
        = (some ⟨e1, w1⟩, some ⟨e2, w2⟩, some ⟨e3, w3⟩) ∧
      popThree (ins3 ⟨e1, w1⟩ ⟨e3, w3⟩ ⟨e2, w2⟩)
        = (some ⟨e1, w1⟩, some ⟨e2, w2⟩, some ⟨e3, w3⟩) ∧
      popThree (ins3 ⟨e2, w2⟩ ⟨e1, w1⟩ ⟨e3, w3⟩)
        = (some ⟨e1, w1⟩, some ⟨e2, w2⟩, some ⟨e3, w3⟩) ∧
      popThree (ins3 ⟨e2, w2⟩ ⟨e3, w3⟩ ⟨e1, w1⟩)
        = (some ⟨e1, w1⟩, some ⟨e2, w2⟩, some ⟨e3, w3⟩) ∧
      popThree (ins3 ⟨e3, w3⟩ ⟨e1, w1⟩ ⟨e2, w2⟩)
        = (some ⟨e1, w1⟩, some ⟨e2, w2⟩, some ⟨e3, w3⟩) ∧
      popThree (ins3 ⟨e3, w3⟩ ⟨e2, w2⟩ ⟨e1, w1⟩)
        = (some ⟨e1, w1⟩, some ⟨e2, w2⟩, some ⟨e3, w3⟩)) ∧
    ((TimerQueue.pop_earliest
        (TimerQueue.insert_timer (TimerQueue.insert_timer [] ⟨t, some a⟩) ⟨t, some b⟩)).1
          = some ⟨t, some a⟩ ∧
      (TimerQueue.pop_earliest (TimerQueue.pop_earliest
        (TimerQueue.insert_timer (TimerQueue.insert_timer [] ⟨t, some a⟩) ⟨t, some b⟩)).2).1
          = some ⟨t, some b⟩) := by
  have hs := ins3_sorted e1 e2 e3 w1 w2 w3 h12 h23
  obtain ⟨p1, p2, p3, p4, p5, p6⟩ := hs
  refine ⟨⟨?_, ?_, ?_, ?_, ?_, ?_⟩, ?_, ?_⟩
  · rw [p1]; rfl
  · rw [p2]; rfl
  · rw [p3]; rfl
  · rw [p4]; rfl
  · rw [p5]; rfl
  · rw [p6]; rfl
  · simp [TimerQueue.insert_timer, TimerQueue.pop_earliest]
  · simp [TimerQueue.insert_timer, TimerQueue.pop_earliest]

/-- C5 witness: instantiation at deadlines 1 < 2 < 3 and a tie at tick 7. -/
theorem c5_deadline_ordering_witness :
    popThree (ins3 ⟨1, none⟩ ⟨2, none⟩ ⟨3, none⟩)
      = (some ⟨1, none⟩, some ⟨2, none⟩, some ⟨3, none⟩) :=
  (c5_deadline_ordering 1 2 3 7 4 5 none none none (by decide) (by decide)).1.1

/-- C1: with two timers expired at the same tick 100 (queue built by the
ordered insert) and the compare event raised at counter 100, a single
handle_rtc0_interrupt entry pops and wakes only the first timer; the
second stays queued and Compare0 is reprogrammed to 100, the tick the
counter has already reached in this 24-bit cycle, so no further compare
match can occur for it until the counter wraps a full period. -/
theorem c1_compare_entry_services_one_deadline :
    TimerQueue.insert_timer (TimerQueue.insert_timer [] ⟨100, some 1⟩) ⟨100, some 2⟩
      = [⟨100, some 1⟩, ⟨100, some 2⟩] ∧
    handle_rtc0_interrupt ⟨100, 0, [⟨100, some 1⟩, ⟨100, some 2⟩], 100, false, true⟩
      = .ok (⟨100, 0, [⟨100, some 2⟩], 100, false, false⟩, [1]) ∧
    set_deadline 100 = 100 := by
  refine ⟨rfl, rfl, rfl⟩

/-- C2: arming a deadline never produces a TimerError; set_deadline always
programs the low 24 bits of the tick (mask = mod 2^24), so the
out-of-range tick 2^24 + 5 is silently armed as compare value 5 instead
of being rejected with DeadlineTooLarge. -/
theorem c2_set_deadline_truncates_silently (ticks : Nat) :
    set_deadline ticks = ticks % 2 ^ 24 ∧
    set_deadline (2 ^ 24 + 5) = 5 ∧
    (Timer.add_to_queue ⟨0, 0, [], 0, false, false⟩ ⟨2 ^ 24 + 5, some 1⟩).compare = 5 ∧
    (Timer.add_to_queue ⟨0, 0, [], 0, false, false⟩ ⟨2 ^ 24 + 5, some 1⟩).deadlines
      = [⟨2 ^ 24 + 5, some 1⟩] := by
  refine ⟨?_, by decide, by decide, by decide⟩
  have hm : (0x00FFFFFF : Nat) = 2 ^ 24 - 1 := by norm_num
  rw [set_deadline, hm, Nat.and_pow_two_sub_one_eq_mod]

/-- C3: the dequeue-loop guard in Executor::run_tasks skips (reporting,
modelled as ok none) every popped index strictly greater than N, but the
boundary index N itself passes the guard `task > tasks.len()` and is then
used to index the task array, which is out of bounds (modelled as
Except.error): the index N, although outside [0, N), is not skipped. -/
theorem c3_bounds_check_off_by_one (ts : List T) (k : Nat) :
    run_step ts (ts.length + 1 + k) = .ok none ∧
    run_step ts ts.length = .error "index out of bounds" := by
  constructor
  · rw [run_step, if_pos (by omega)]
  · rw [run_step, if_neg (by omega), List.getElem?_eq_none (Nat.le_refl _)]

/-- C6: whenever the Compare0 event flag is set while the deadline queue
is empty, handle_rtc0_interrupt hits the expect on pop_earliest and
panics with "No deadline available on interrupt" instead of ignoring the
event; such a state is reachable because removing the last timer from the
queue leaves the already-programmed Compare0 register and the event
configuration untouched. -/
theorem c6_empty_queue_compare_panics (t u : Ticker) (timer : TimerInner)
    (hevt : t.compare_evt = true) (hempty : t.deadlines = [])
    (hu : u.deadlines = [timer]) :
    handle_rtc0_interrupt t = .error "No deadline available on interrupt" ∧
    (Timer.remove_from_queue u timer).deadlines = [] ∧
    (Timer.remove_from_queue u timer).compare = u.compare ∧
    (Timer.remove_from_queue u timer).compare_evt = u.compare_evt := by
  constructor
  · rw [handle_rtc0_interrupt]
    cases ho : t.overflow_evt <;>
      simp [ho, hevt, hempty, TimerQueue.pop_earliest]
  · rw [Timer.remove_from_queue]
    simp [hu, TimerQueue.peek_earliest]

/-- C6 witness: instantiation at a concrete spurious-compare state and a
concrete single-timer state. -/
theorem c6_empty_queue_compare_panics_witness :
    handle_rtc0_interrupt ⟨0, 0, [], 5, false, true⟩
      = .error "No deadline available on interrupt" :=
  (c6_empty_queue_compare_panics ⟨0, 0, [], 5, false, true⟩
    ⟨0, 0, [⟨7, some 1⟩], 5, false, false⟩ ⟨7, some 1⟩ rfl rfl rfl).1

/-- C7 counterexample: a first poll of wait_for with the pin already at the
target level returns Ready immediately, not Pending, and stores nothing
in the wake slot — there is no Init state that unconditionally registers
and suspends. -/
theorem c7_first_poll_ready_counterexample :
    InputChannel.wait_for_poll PinState.High PinState.High 7 INVALID_TASK_ID
        = (Poll.Ready (), INVALID_TASK_ID) ∧
    (InputChannel.wait_for_poll PinState.High PinState.High 7 INVALID_TASK_ID).1
        ≠ Poll.Pending := by
  refine ⟨rfl, by decide⟩

/-- C7 (amended): every poll of wait_for — first or subsequent — reads the
current pin level synchronously; it completes exactly when the level
equals the target, leaving the wake slot untouched, and otherwise stores
the calling task id into the wake slot and returns Pending. -/
theorem c7_wait_for_poll_levels (tid slot : Nat) (lvl : PinState) :
    InputChannel.wait_for_poll lvl lvl tid slot = (Poll.Ready (), slot) ∧
    InputChannel.wait_for_poll PinState.High PinState.Low tid slot = (Poll.Pending, tid) ∧
    InputChannel.wait_for_poll PinState.Low PinState.High tid slot = (Poll.Pending, tid) := by
  refine ⟨by simp [InputChannel.wait_for_poll], rfl, rfl⟩

/-- C8 counterexample: a first poll of the async recv with a value already
in the slot does not return the value: it registers the waker, leaves the
value in place and returns Pending. -/
theorem c8_first_poll_pending_counterexample :
    Receiver.recvPoll RecvState.Init 3 (⟨some 42, none⟩ : Channel Nat)
        = (Poll.Pending, RecvState.Wait, ⟨some 42, some 3⟩) ∧
    (Receiver.recvPoll RecvState.Init 3 (⟨some 42, none⟩ : Channel Nat)).1
        ≠ Poll.Ready 42 := by
  refine ⟨rfl, by decide⟩

/-- C8 (amended): the first poll of the async recv unconditionally
registers the wake target of the receiver and suspends, whether or not a
value is present; every subsequent poll checks the slot, returning the
value and clearing the slot when one is present and staying suspended
otherwise. -/
theorem c8_recv_poll_behavior (w : Nat) (c : Channel T) (v : T) (wk : Option Nat) :
    Receiver.recvPoll RecvState.Init w c
        = (Poll.Pending, RecvState.Wait, c.register w) ∧
    Receiver.recvPoll RecvState.Wait w (⟨some v, wk⟩ : Channel T)
        = (Poll.Ready v, RecvState.Wait, ⟨none, wk⟩) ∧
    Receiver.recvPoll RecvState.Wait w (⟨none, wk⟩ : Channel T)
        = (Poll.Pending, RecvState.Wait, ⟨none, wk⟩) := by
  refine ⟨rfl, rfl, rfl⟩

/-- C9: send(a) then send(b) then recv() yields exactly b — a is
discarded unread — a second recv() finds the slot empty, a recv() with
nothing ever sent finds the slot empty, and each send wakes the
registered wake target when one is present and wakes nothing otherwise. -/
theorem c9_mailbox_overwrite (a b : T) (w : Option Nat) (k : Nat) :
    (Channel.recv (Channel.send (Channel.send ⟨none, w⟩ a).1 b).1).1 = some b ∧
    (Channel.recv (Channel.recv (Channel.send (Channel.send ⟨none, w⟩ a).1 b).1).2).1
        = none ∧
    (Channel.recv (⟨none, w⟩ : Channel T)).1 = none ∧
    (Channel.send (⟨none, some k⟩ : Channel T) a).2 = [k] ∧
    (Channel.send (⟨none, none⟩ : Channel T) a).2 = [] := by
  refine ⟨rfl, rfl, rfl, rfl, rfl⟩

/-- C10: starting from a fresh initialized manager, nine successive
InputChannel::new calls allocate the sequential units 0 through 7 and the
ninth fails with the typed OutOfChannels error. -/
theorem c10_channel_allocation_bound :
    allocRun (MAX_CHANNELS + 1) ⟨0, true⟩
      = [.ok 0, .ok 1, .ok 2, .ok 3, .ok 4, .ok 5, .ok 6, .ok 7,
         .error GpioteError.OutOfChannels] := by
  rfl

end MicroAsync
